import Mathlib

/-!
Verification of the ReviewCheck review-scoring and feedback pipeline.

Shallow embedding of the backend's scoring, labeling, feedback-storage and
retraining-gate logic. Scores and probabilities are modelled as rationals;
the classifier's positive-class probability and the fitted model's accuracy
are abstracted as parameters (the embedding/classifier internals are opaque
external capabilities). Python's one-decimal rounding is modelled by
`round1`; the exact tie-breaking mode of Python's `round` is irrelevant to
every statement below because both sides of each equation use the same
rounding function.
-/

/-- Rounding to one decimal place, the model of Python's `round(x, 1)`. -/
def round1 (x : ℚ) : ℚ := ((round (10 * x) : ℤ) : ℚ) / 10

/-- Substring containment on character lists, the model of Python's
`k in text` for strings. -/
def containsSub (needle : List Char) : List Char → Bool
  | [] => needle.isEmpty
  | c :: rest => needle.isPrefixOf (c :: rest) || containsSub needle rest

/-- `any(k in text for k in kws)` from `SmartReviewScorer._extract_features`. -/
def hasAnyKeyword (text : String) (kws : List String) : Bool :=
  kws.any fun k => containsSub k.data text.data

/-- `PRODUCT_KEYWORDS` from `services/review_scorer.py`. -/
def PRODUCT_KEYWORDS : List String :=
  ["두께", "두껍", "얇", "시보리", "지퍼", "마감", "박음질", "실밥", "손상",
   "보들", "부드럽", "거칠", "까끌", "탄탄", "짱짱", "퀄리", "재질",
   "소재", "원단", "털", "보풀", "비침", "안감", "주머니", "단추", "버튼",
   "신축성", "스판", "구김", "물빠짐", "세탁", "건조", "냄새", "향", "오염",
   "핏", "기장", "소매", "허리", "어깨", "가슴", "품", "통",
   "오버", "루즈", "슬림", "타이트", "넉넉", "작아", "커요", "길어", "짧아",
   "넓어", "좁아", "딱 맞", "헐렁", "쪼이", "작네", "크네", "길네", "짧네", "맞네",
   "사이즈", "크기", "cm", "kg", "키", "몸무게", "평소", "크네요", "커서", "작네요",
   "불편", "편안", "아프", "따뜻", "시원", "여름", "겨울", "가을", "봄", "계절",
   "입어보", "신어보", "써보", "사용해", "착용", "따뜻",
   "발볼", "발등", "굽", "무게", "가볍", "무겁", "소음", "소리", "조립", "설치", "신발끈",
   "색감", "색상", "실물", "퀄리티", "실제"]

/-- `DELIVERY_KEYWORDS` from `services/review_scorer.py`. -/
def DELIVERY_KEYWORDS : List String :=
  ["배송", "택배", "기사", "박스", "포장", "주문", "도착", "배송비", "칼배송"]

/-- `length_val = min(len(text), 100) / 100.0` from `_extract_features`. -/
def length_signal (text : String) : ℚ := ((min text.length 100 : ℕ) : ℚ) / 100

/-- `has_product = 1 if any(k in text for k in PRODUCT_KEYWORDS) else 0`. -/
def has_product (text : String) : ℕ :=
  if hasAnyKeyword text PRODUCT_KEYWORDS then 1 else 0

/-- `has_delivery = 1 if any(k in text for k in DELIVERY_KEYWORDS) else 0`. -/
def has_delivery (text : String) : ℕ :=
  if hasAnyKeyword text DELIVERY_KEYWORDS then 1 else 0

/-- `SmartReviewScorer.predict` from `services/review_scorer.py`, with the
classifier's positive-class probability `prob` (`predict_proba(...)[0][1]`)
as a parameter. In rule 2 the source computes `final_score * 0.1` at a point
where `final_score` still equals `raw_score`, so it is written as
`raw_score * (1/10)` here. -/
def predict (prob : ℚ) (text : String) : ℚ :=
  if text = "" then 0
  else
    let raw_score := prob * 100
    let final_score :=
      if has_product text = 0 then raw_score * (25 / 100)
      else if has_delivery text = 1 ∧ length_signal text < 2 / 10 then
        raw_score * (1 / 10)
      else
        raw_score * (85 / 100) +
          raw_score * (15 / 100) * (((min text.length 50 : ℕ) : ℚ) / 50)
    round1 final_score

/-- `smart_label_hybrid` from `routers/feedback.py`: extreme scores are fixed,
the middle band is labeled relative to the batch average. -/
def smart_label_hybrid (score avg_score : ℚ) (user_satisfaction : ℤ) : Option ℤ :=
  if user_satisfaction = 1 then
    if score ≥ 85 then some 1
    else if score ≤ 35 then some 0
    else if score > avg_score then some 1 else some 0
  else
    if score ≤ 35 then some 0
    else if score ≥ 85 then some 1
    else if score < avg_score then some 0 else some 1

/-- `smart_label_extreme` from `routers/feedback.py`: confident samples only,
`none` models Python's `None` (exclude from training). -/
def smart_label_extreme (score : ℚ) (user_satisfaction : ℤ) : Option ℤ :=
  if user_satisfaction = 1 then
    if score ≥ 80 then some 1
    else if score ≤ 40 then some 0
    else none
  else
    if score ≤ 40 then some 0
    else if score ≥ 80 then some 1
    else none

/-- `smart_label_relative` from `routers/feedback.py`. -/
def smart_label_relative (score avg_score : ℚ) (user_satisfaction : ℤ) : ℤ :=
  if user_satisfaction = 1 then
    if score > avg_score then 1 else 0
  else
    if score < avg_score then 0 else 1

/-- `calculate_label_confidence` from `routers/feedback.py`. -/
def calculate_label_confidence (score : ℚ) (label : ℤ) : ℚ :=
  if label = 1 then min (score / 100) 1 else min ((100 - score) / 100) 1

/-- Per-review display label from `ReviewAIAnalyzer.analyze_reviews`
("매우 도움됨" = highly helpful, "부분적으로 도움됨" = partially helpful,
"도움 안됨" = not helpful). -/
def analysis_label (score : ℚ) : String :=
  if score ≥ 76 then "매우 도움됨"
  else if score ≥ 36 then "부분적으로 도움됨"
  else "도움 안됨"

/-- `avg_score = sum(final_scores) / len(final_scores) if final_scores else 0`
from `ReviewAIAnalyzer.analyze_reviews`. -/
def batch_avg_score (scores : List ℚ) : ℚ :=
  if scores.isEmpty then 0 else scores.sum / (scores.length : ℚ)

/-- Batch verdict from `ReviewAIAnalyzer.analyze_reviews`, computed over
`avg_trust = avg_score / 100`. -/
def batch_verdict (scores : List ℚ) : String :=
  let avg_trust := batch_avg_score scores / 100
  if avg_trust > 7 / 10 then "safe"
  else if avg_trust ≥ 3 / 10 then "suspicious"
  else "malicious"

/-- The scoring loop of `ReviewAIAnalyzer.analyze_reviews`
(`for review in reviews: score = self.scorer.predict(text)`). The scorer may
raise; Python exception propagation is the `Except` error case, and the loop
has no per-review handler, so the first error aborts the whole traversal. -/
def score_all (scorer : String → Except String ℚ) : List String → Except String (List ℚ)
  | [] => Except.ok []
  | t :: ts =>
    match scorer t with
    | Except.error e => Except.error e
    | Except.ok s =>
      match score_all scorer ts with
      | Except.error e => Except.error e
      | Except.ok ss => Except.ok (s :: ss)

/-- The analysis result assembled by `ReviewAIAnalyzer.analyze_reviews`:
per-review scores with display labels, plus the batch verdict. -/
structure AnalysisResult where
  scores : List ℚ
  labels : List String
  verdict : String
deriving DecidableEq

/-- `ReviewAIAnalyzer.analyze_reviews`: scores every review, attaches display
labels, computes the batch verdict. Its `except` block re-raises, so a
scoring error propagates to the caller. -/
def analyze_reviews (scorer : String → Except String ℚ) (reviews : List String) :
    Except String AnalysisResult :=
  match score_all scorer reviews with
  | Except.error e => Except.error e
  | Except.ok ss => Except.ok ⟨ss, ss.map analysis_label, batch_verdict ss⟩

/-- Terminal batch state written by `AnalysisService.analyze_with_ai`. -/
inductive BatchOutcome where
  | completed (result : AnalysisResult)
  | failed (error_message : String)
deriving DecidableEq

/-- `true` exactly on the `failed` outcome. -/
def BatchOutcome.isFailed : BatchOutcome → Bool
  | BatchOutcome.failed _ => true
  | BatchOutcome.completed _ => false

/-- `AnalysisService.analyze_with_ai` from `src/backend`: runs the analyzer
and marks the batch `completed` on success; any exception from the analysis
step is caught and the batch is marked `failed` with the error message. -/
def analyze_with_ai (scorer : String → Except String ℚ) (reviews : List String) :
    BatchOutcome :=
  match analyze_reviews scorer reviews with
  | Except.ok r => BatchOutcome.completed r
  | Except.error e => BatchOutcome.failed e

/-- A scorer that fails on the single review text "b" and scores every other
text 50, used to exhibit batch-abort behaviour on one bad review. -/
def demo_scorer : String → Except String ℚ :=
  fun t => if t = "b" then Except.error "model failure" else Except.ok 50

/-- One review object as seen by `submit_feedback` (`content`/`text` and
`reliability_score` fields). -/
structure ReviewItem where
  content : String
  reliability_score : ℚ
deriving DecidableEq

/-- One `Feedback` ORM row as created by `submit_feedback`
(`models/feedback.py`): `tags` holds the assigned binary label. -/
structure FeedbackRow where
  analysis_id : ℕ
  review_text : String
  tags : ℤ
  original_score : ℚ
  labeling_strategy : String
  label_confidence : ℚ
deriving DecidableEq

/-- The strategy dispatch chain inside `submit_feedback`'s review loop:
`weak` / `hybrid` / `extreme` / `relative`, any other string falls through
to the `else` branch which applies `smart_label_hybrid`. -/
def label_for_strategy (strategy : String) (score avg : ℚ) (us : ℤ) : Option ℤ :=
  if strategy = "weak" then some us
  else if strategy = "hybrid" then smart_label_hybrid score avg us
  else if strategy = "extreme" then smart_label_extreme score us
  else if strategy = "relative" then some (smart_label_relative score avg us)
  else smart_label_hybrid score avg us

/-- `avg_score = np.mean(scores) if scores else 50.0` from `submit_feedback`;
every collected review contributes its `reliability_score`. -/
def collected_avg (reviews : List ReviewItem) : ℚ :=
  if reviews.isEmpty then 50
  else (reviews.map fun r => r.reliability_score).sum / (reviews.length : ℚ)

/-- The saving loop of `submit_feedback`: reviews with empty text are
skipped, reviews whose label is `None` are excluded, the rest become
`Feedback` rows for the batch. -/
def make_feedback_rows (aid : ℕ) (strategy : String) (us : ℤ) (avg : ℚ) :
    List ReviewItem → List FeedbackRow
  | [] => []
  | r :: rs =>
    let rest := make_feedback_rows aid strategy us avg rs
    if r.content = "" then rest
    else
      match label_for_strategy strategy r.reliability_score avg us with
      | none => rest
      | some l =>
        { analysis_id := aid
          review_text := r.content
          tags := l
          original_score := r.reliability_score
          labeling_strategy := strategy
          label_confidence := calculate_label_confidence r.reliability_score l } :: rest

/-- `submit_feedback` from `routers/feedback.py`, restricted to its effect on
the stored `Feedback` rows: first `db.query(Feedback).filter(analysis_id ==
request.analysis_id).delete()`, then the newly labeled rows are added, and
the transaction commits. -/
def submit_feedback (db : List FeedbackRow) (aid : ℕ) (strategy : String)
    (us : ℤ) (reviews : List ReviewItem) : List FeedbackRow :=
  (db.filter fun f => !(f.analysis_id == aid)) ++
    make_feedback_rows aid strategy us (collected_avg reviews) reviews

/-- One `AIModel` (ModelVersion) row: version `v{major}.{minor}`, accuracy,
active flag. -/
structure AIModel where
  major : ℕ
  minor : ℕ
  accuracy : ℚ
  active : Bool
deriving DecidableEq

/-- One `AIJob` (RetrainingJob) row, restricted to status and error message
(the timestamp and log-trail fields carry no decidable content). -/
structure AIJob where
  status : String
  error_message : Option String
deriving DecidableEq

/-- The insufficient-data message of `train_random_forest`
("total data insufficient: n (at least 100 required)"). -/
def insufficient_msg (n : ℕ) : String :=
  s!"전체 데이터 부족: {n}개 (최소 100개 필요)"

/-- The class-imbalance message of `train_random_forest`
("one label too scarce"). -/
def imbalance_msg (n1 n0 : ℕ) : String :=
  s!"한쪽 라벨이 너무 적음: label=1 {n1}개, label=0 {n0}개"

/-- Outcome of one training run (`result` dict of `train_random_forest`). -/
inductive TrainResult where
  | ok (accuracy : ℚ)
  | err (msg : String)
deriving DecidableEq

/-- `train_random_forest` from `scripts/train_model.py`, as a function of the
merged dataset's label column. The sklearn fit/evaluation after the two data
gates is an opaque external step, abstracted by the `fit_accuracy` parameter;
the data gates themselves are translated exactly: merged size `< 100` fails
the job with the insufficient-data message, then `label_1_count < 5 or
label_0_count < 5` fails it with the imbalance message. -/
def train_random_forest (labels : List ℤ) (fit_accuracy : ℚ) (job : AIJob) :
    AIJob × TrainResult :=
  let running : AIJob := { job with status := "running" }
  if labels.length < 100 then
    ({ running with
         status := "failed"
         error_message := some (insufficient_msg labels.length) },
     TrainResult.err (insufficient_msg labels.length))
  else
    let n1 := labels.count 1
    let n0 := labels.count 0
    if n1 < 5 ∨ n0 < 5 then
      ({ running with
           status := "failed"
           error_message := some (imbalance_msg n1 n0) },
       TrainResult.err (imbalance_msg n1 n0))
    else
      ({ running with status := "completed" }, TrainResult.ok fit_accuracy)

/-- `create_new_model_version` from `scripts/train_model.py`: registers the
next minor version as active and deactivates the previous active model. -/
def create_new_model_version (models : List AIModel) (old : AIModel)
    (accuracy : ℚ) : List AIModel :=
  (models.map fun m => if m = old then { m with active := false } else m) ++
    [{ major := old.major, minor := old.minor + 1, accuracy := accuracy,
       active := true }]

/-- The per-job body of `check_and_process_jobs`: look up the active model,
run `train_random_forest`, and register a new model version only when the
run reports success. -/
def process_job (models : List AIModel) (labels : List ℤ) (fit_accuracy : ℚ)
    (job : AIJob) : List AIModel × AIJob :=
  match models.find? fun m => m.active with
  | none =>
    (models,
     { job with
         status := "failed"
         error_message := some "활성 모델 없음" })
  | some current =>
    match train_random_forest labels fit_accuracy job with
    | (job2, TrainResult.ok acc) => (create_new_model_version models current acc, job2)
    | (job2, TrainResult.err _) => (models, job2)

/-- Demo model list and pending job for concrete retraining-gate witnesses. -/
def demo_models : List AIModel :=
  [{ major := 1, minor := 0, accuracy := 9/10, active := true }]

/-- A pending retraining job, as created externally before processing. -/
def demo_job : AIJob := { status := "pending", error_message := none }

/-- Claim C2: the hybrid labeling function always returns a label (never
`None`); when satisfied it maps score ≥ 85 to 1, score ≤ 35 to 0 and the
middle band to `1 iff score > batch average`; when unsatisfied it maps
score ≤ 35 to 0, score ≥ 85 to 1 and the middle band to
`0 iff score < batch average`; in particular 90 (avg 50, satisfied) ↦ 1,
20 ↦ 0, and 60 (avg 65) ↦ 0. -/
theorem claim_C2 (score avg : ℚ) :
    (∀ us : ℤ, (smart_label_hybrid score avg us).isSome = true) ∧
    smart_label_hybrid score avg 1 =
      some (if score ≥ 85 then 1 else if score ≤ 35 then 0
            else if score > avg then 1 else 0) ∧
    smart_label_hybrid score avg 0 =
      some (if score ≤ 35 then 0 else if score ≥ 85 then 1
            else if score < avg then 0 else 1) ∧
    smart_label_hybrid 90 50 1 = some 1 ∧
    smart_label_hybrid 20 50 1 = some 0 ∧
    smart_label_hybrid 60 65 1 = some 0 := by
  refine ⟨?_, ?_, ?_, ?_, ?_, ?_⟩
  · intro us
    unfold smart_label_hybrid
    split_ifs <;> rfl
  · unfold smart_label_hybrid
    norm_num
    split_ifs <;> rfl
  · unfold smart_label_hybrid
    norm_num
    split_ifs <;> rfl
  · norm_num [smart_label_hybrid]
  · norm_num [smart_label_hybrid]
  · norm_num [smart_label_hybrid]

/-- Claim C7: the extreme labeling strategy returns 1 for score ≥ 80, 0 for
score ≤ 40, and `None` exactly on the open band 40 < score < 80, for both
satisfaction values; in particular score 50 (unsatisfied) is excluded. -/
theorem claim_C7 (score : ℚ) (us : ℤ) :
    smart_label_extreme score us =
      (if score ≥ 80 then some 1 else if score ≤ 40 then some 0 else none) ∧
    (smart_label_extreme score us = none ↔ (40 < score ∧ score < 80)) ∧
    smart_label_extreme 50 0 = none := by
  have hmain : smart_label_extreme score us =
      (if score ≥ 80 then some 1 else if score ≤ 40 then some 0 else none) := by
    unfold smart_label_extreme
    split_ifs <;> first | rfl | linarith
  refine ⟨hmain, ?_, by norm_num [smart_label_extreme]⟩
  rw [hmain]
  split_ifs with h80 h40
  · simp only [reduceCtorEq, false_iff, not_and, not_lt]
    intro _
    linarith
  · simp only [reduceCtorEq, false_iff, not_and, not_lt]
    intro hc
    linarith
  · simp only [true_iff]
    constructor <;> linarith

/-- Claim C9: the extreme labeling strategy ignores the satisfaction flag:
the satisfied and unsatisfied branches compute the identical mapping. -/
theorem claim_C9 (score : ℚ) (a b : ℤ) :
    smart_label_extreme score a = smart_label_extreme score b := by
  unfold smart_label_extreme
  split_ifs <;> first | rfl | linarith

/-- The strategy chain maps the literal "hybrid" to `smart_label_hybrid`. -/
theorem label_for_strategy_hybrid (score avg : ℚ) (us : ℤ) :
    label_for_strategy "hybrid" score avg us = smart_label_hybrid score avg us := by
  unfold label_for_strategy
  rw [if_neg (by decide), if_pos rfl]

/-- Any strategy string outside the four known ones reaches the `else`
branch of the dispatch chain, which applies `smart_label_hybrid`. -/
theorem label_for_strategy_unknown (strategy : String) (h1 : strategy ≠ "weak")
    (h2 : strategy ≠ "hybrid") (h3 : strategy ≠ "extreme")
    (h4 : strategy ≠ "relative") (score avg : ℚ) (us : ℤ) :
    label_for_strategy strategy score avg us = smart_label_hybrid score avg us := by
  unfold label_for_strategy
  rw [if_neg h1, if_neg h2, if_neg h3, if_neg h4]

/-- Claim C10: the feedback endpoint accepts any strategy string; a string
outside {"weak", "hybrid", "extreme", "relative"} is silently labeled with
the hybrid strategy, so the stored labels coincide with those of
`smart_label_hybrid` (the rows differ only in the recorded strategy name). -/
theorem claim_C10 (strategy : String) (h1 : strategy ≠ "weak")
    (h2 : strategy ≠ "hybrid") (h3 : strategy ≠ "extreme")
    (h4 : strategy ≠ "relative") (score avg : ℚ) (us : ℤ) (aid : ℕ)
    (reviews : List ReviewItem) :
    label_for_strategy strategy score avg us = smart_label_hybrid score avg us ∧
    (make_feedback_rows aid strategy us avg reviews).map (fun r => r.tags) =
      (make_feedback_rows aid "hybrid" us avg reviews).map (fun r => r.tags) := by
  refine ⟨label_for_strategy_unknown strategy h1 h2 h3 h4 score avg us, ?_⟩
  induction reviews with
  | nil => rfl
  | cons r rs ih =>
    simp only [make_feedback_rows]
    rw [label_for_strategy_unknown strategy h1 h2 h3 h4 r.reliability_score avg us,
        label_for_strategy_hybrid r.reliability_score avg us]
    by_cases hc : r.content = ""
    · rw [if_pos hc, if_pos hc]
      exact ih
    · rw [if_neg hc, if_neg hc]
      cases smart_label_hybrid r.reliability_score avg us with
      | none => exact ih
      | some l => simp only [List.map_cons, ih]

/-- Claim C10 witness: the undocumented strategy "smart" is labeled exactly
as "hybrid" on a one-review batch. -/
theorem claim_C10_witness :
    label_for_strategy "smart" 60 50 1 = smart_label_hybrid 60 50 1 ∧
    (make_feedback_rows 7 "smart" 1 50 [{ content := "good", reliability_score := 60 }]).map
        (fun r => r.tags) =
      (make_feedback_rows 7 "hybrid" 1 50 [{ content := "good", reliability_score := 60 }]).map
        (fun r => r.tags) :=
  claim_C10 "smart" (by decide) (by decide) (by decide) (by decide) 60 50 1 7
    [{ content := "good", reliability_score := 60 }]

/-- Claim C5: batch verdict and per-review display labels use distinct
thresholds: the verdict over `avg/100` is "safe" above 0.7, "suspicious" on
[0.3, 0.7] and "malicious" below 0.3, while each review's display label uses
the point bands ≥ 76 / ≥ 36 / below; the batch average is the mean of the
per-review scores. -/
theorem claim_C5 (scores : List ℚ) (score : ℚ) (h : scores ≠ []) :
    (batch_verdict scores = "safe" ↔ batch_avg_score scores / 100 > 7 / 10) ∧
    (batch_verdict scores = "suspicious" ↔
      (3 / 10 ≤ batch_avg_score scores / 100 ∧
        batch_avg_score scores / 100 ≤ 7 / 10)) ∧
    (batch_verdict scores = "malicious" ↔ batch_avg_score scores / 100 < 3 / 10) ∧
    (analysis_label score = "매우 도움됨" ↔ score ≥ 76) ∧
    (analysis_label score = "부분적으로 도움됨" ↔ (36 ≤ score ∧ score < 76)) ∧
    (analysis_label score = "도움 안됨" ↔ score < 36) ∧
    batch_avg_score scores = scores.sum / (scores.length : ℚ) := by
  have havg : batch_avg_score scores = scores.sum / (scores.length : ℚ) := by
    unfold batch_avg_score
    rw [if_neg (by simpa [List.isEmpty_iff] using h)]
  refine ⟨?_, ?_, ?_, ?_, ?_, ?_, havg⟩
  · simp only [batch_verdict]
    split_ifs with ha hb
    · exact ⟨fun _ => ha, fun _ => rfl⟩
    · exact ⟨fun hx => absurd hx (by decide), fun hx => absurd hx ha⟩
    · exact ⟨fun hx => absurd hx (by decide), fun hx => absurd hx ha⟩
  · simp only [batch_verdict]
    split_ifs with ha hb
    · exact ⟨fun hx => absurd hx (by decide), fun hx => absurd ha (not_lt.mpr hx.2)⟩
    · exact ⟨fun _ => ⟨hb, not_lt.mp ha⟩, fun _ => rfl⟩
    · exact ⟨fun hx => absurd hx (by decide), fun hx => absurd hx.1 hb⟩
  · simp only [batch_verdict]
    split_ifs with ha hb
    · exact ⟨fun hx => absurd hx (by decide), fun hx => (by linarith : False).elim⟩
    · exact ⟨fun hx => absurd hx (by decide), fun hx => absurd hb (not_le.mpr hx)⟩
    · exact ⟨fun _ => not_le.mp hb, fun _ => rfl⟩
  · unfold analysis_label
    split_ifs with ha hb
    · exact ⟨fun _ => ha, fun _ => rfl⟩
    · exact ⟨fun hx => absurd hx (by decide), fun hx => absurd hx ha⟩
    · exact ⟨fun hx => absurd hx (by decide), fun hx => absurd hx ha⟩
  · unfold analysis_label
    split_ifs with ha hb
    · exact ⟨fun hx => absurd hx (by decide), fun hx => absurd hx.2 (not_lt.mpr ha)⟩
    · exact ⟨fun _ => ⟨hb, not_le.mp ha⟩, fun _ => rfl⟩
    · exact ⟨fun hx => absurd hx (by decide), fun hx => absurd hx.1 hb⟩
  · unfold analysis_label
    split_ifs with ha hb
    · exact ⟨fun hx => absurd hx (by decide), fun hx => (by linarith : False).elim⟩
    · exact ⟨fun hx => absurd hx (by decide), fun hx => absurd hb (not_le.mpr hx)⟩
    · exact ⟨fun _ => not_le.mp hb, fun _ => rfl⟩

/-- Claim C5 witness: a one-review batch with score 50 is "suspicious", and
its constituent iff holds at that input. -/
theorem claim_C5_witness :
    batch_verdict [(50 : ℚ)] = "suspicious" ↔
      (3 / 10 ≤ batch_avg_score [(50 : ℚ)] / 100 ∧
        batch_avg_score [(50 : ℚ)] / 100 ≤ 7 / 10) :=
  (claim_C5 [(50 : ℚ)] 80 (by simp)).2.1

/-- Claim C1: for non-empty text, `predict` returns the rounded piecewise
formula over `raw = prob * 100`: no product keyword gives `raw * 0.25`;
otherwise a delivery keyword together with `length_signal < 0.2` gives
`raw * 0.1`; otherwise `raw*0.85 + raw*0.15*min(len,50)/50` — the three
rules mutually exclusive and tried in that order (first match wins), which
is exactly the branch structure of the conjunction below. -/
theorem claim_C1 (prob : ℚ) (text : String) (h : text ≠ "") :
    (hasAnyKeyword text PRODUCT_KEYWORDS = false →
      predict prob text = round1 (prob * 100 * (25 / 100))) ∧
    (hasAnyKeyword text PRODUCT_KEYWORDS = true →
      hasAnyKeyword text DELIVERY_KEYWORDS = true →
      length_signal text < 2 / 10 →
      predict prob text = round1 (prob * 100 * (1 / 10))) ∧
    (hasAnyKeyword text PRODUCT_KEYWORDS = true →
      ¬(hasAnyKeyword text DELIVERY_KEYWORDS = true ∧ length_signal text < 2 / 10) →
      predict prob text = round1 (prob * 100 * (85 / 100) +
        prob * 100 * (15 / 100) * (((min text.length 50 : ℕ) : ℚ) / 50))) := by
  refine ⟨?_, ?_, ?_⟩
  · intro hk
    have hp : has_product text = 0 := by simp [has_product, hk]
    simp only [predict]
    rw [if_neg h, if_pos hp]
  · intro hk hd hl
    have hp : ¬ has_product text = 0 := by simp [has_product, hk]
    have hdd : has_delivery text = 1 := by simp [has_delivery, hd]
    simp only [predict]
    rw [if_neg h, if_neg hp, if_pos ⟨hdd, hl⟩]
  · intro hk hcond
    have hp : ¬ has_product text = 0 := by simp [has_product, hk]
    have hc2 : ¬(has_delivery text = 1 ∧ length_signal text < 2 / 10) := by
      intro hc
      apply hcond
      refine ⟨?_, hc.2⟩
      by_cases hb : hasAnyKeyword text DELIVERY_KEYWORDS = true
      · exact hb
      · exfalso
        have h0 : has_delivery text = 0 := by
          simp only [Bool.not_eq_true] at hb
          simp [has_delivery, hb]
        have h1 := hc.1
        omega
    simp only [predict]
    rw [if_neg h, if_neg hp, if_neg hc2]

/-- Claim C1 witness: on the keyword-free text "ab" with probability 2/5 the
score is the rounded penalized raw score, which evaluates to 10. -/
theorem claim_C1_witness :
    predict (2/5) "ab" = round1 (2/5 * 100 * (25 / 100)) ∧ predict (2/5) "ab" = 10 :=
  ⟨(claim_C1 (2/5) "ab" (by decide)).1 (by decide), by
    have h : has_product "ab" = 0 := by decide
    have h2 : ¬("ab" : String) = "" := by decide
    rw [predict, if_neg h2]
    norm_num [h, round1, round_eq]⟩

/-- `round1` preserves nonnegativity. -/
theorem round1_nonneg {x : ℚ} (hx : 0 ≤ x) : 0 ≤ round1 x := by
  unfold round1
  have h2 : (0 : ℤ) ≤ round (10 * x) := by
    rw [round_eq]
    exact Int.floor_nonneg.mpr (by linarith)
  have h3 : (0 : ℚ) ≤ ((round (10 * x) : ℤ) : ℚ) := by exact_mod_cast h2
  linarith

/-- `round1` of a value at most 100 stays at most 100. -/
theorem round1_le_hundred {x : ℚ} (hx : x ≤ 100) : round1 x ≤ 100 := by
  unfold round1
  have h2 : round (10 * x) ≤ 1000 := by
    rw [round_eq]
    have hf : ⌊10 * x + 1 / 2⌋ < 1001 := by
      apply Int.floor_lt.mpr
      push_cast
      linarith
    omega
  have h3 : ((round (10 * x) : ℤ) : ℚ) ≤ 1000 := by exact_mod_cast h2
  linarith

/-- Ten times a `round1` value is an integer: the result has exactly one
decimal place. -/
theorem round1_mul_ten_den (x : ℚ) : (10 * round1 x).den = 1 := by
  unfold round1
  have h : (10 : ℚ) * (((round (10 * x) : ℤ) : ℚ) / 10) =
      ((round (10 * x) : ℤ) : ℚ) := by ring
  rw [h]
  exact Rat.den_intCast _

/-- Claim C8: for classifier probability in [0,1] every score of `predict`
lies in [0, 100] and has exactly one decimal place (ten times it is an
integer), and the empty text short-circuits to 0 for every probability —
the classifier parameter is never consulted. -/
theorem claim_C8 (prob : ℚ) (text : String) (h0 : 0 ≤ prob) (h1 : prob ≤ 1) :
    0 ≤ predict prob text ∧ predict prob text ≤ 100 ∧
    (10 * predict prob text).den = 1 ∧ predict prob "" = 0 := by
  have hraw0 : 0 ≤ prob * 100 := by positivity
  have hraw1 : prob * 100 ≤ 100 := by linarith
  have hb0 : (0 : ℚ) ≤ ((min text.length 50 : ℕ) : ℚ) / 50 := by positivity
  have hb1 : ((min text.length 50 : ℕ) : ℚ) / 50 ≤ 1 := by
    have hmin : (min text.length 50 : ℕ) ≤ 50 := min_le_right _ _
    have hq : ((min text.length 50 : ℕ) : ℚ) ≤ 50 := by exact_mod_cast hmin
    linarith
  by_cases htext : text = ""
  · subst htext
    have hz : predict prob "" = 0 := by simp [predict]
    rw [hz]
    refine ⟨le_refl 0, by norm_num, ?_, rfl⟩
    norm_num
  · have hpe : predict prob text = round1
        (if has_product text = 0 then prob * 100 * (25 / 100)
         else if has_delivery text = 1 ∧ length_signal text < 2 / 10 then
           prob * 100 * (1 / 10)
         else prob * 100 * (85 / 100) +
           prob * 100 * (15 / 100) * (((min text.length 50 : ℕ) : ℚ) / 50)) := by
      simp only [predict]
      rw [if_neg htext]
    rw [hpe]
    refine ⟨round1_nonneg ?_, round1_le_hundred ?_, round1_mul_ten_den _,
      by simp [predict]⟩
    · split_ifs with hp hd
      · exact mul_nonneg hraw0 (by norm_num)
      · exact mul_nonneg hraw0 (by norm_num)
      · have ht1 : 0 ≤ prob * 100 * (85 / 100) := mul_nonneg hraw0 (by norm_num)
        have ht2 : 0 ≤ prob * 100 * (15 / 100) *
            (((min text.length 50 : ℕ) : ℚ) / 50) :=
          mul_nonneg (mul_nonneg hraw0 (by norm_num)) hb0
        linarith
    · split_ifs with hp hd
      · linarith
      · linarith
      · have hm : prob * 100 * (15 / 100) * (((min text.length 50 : ℕ) : ℚ) / 50) ≤
            prob * 100 * (15 / 100) :=
          mul_le_of_le_one_right (mul_nonneg hraw0 (by norm_num)) hb1
        linarith

/-- Claim C8 witness: with probability 1/2 the score of "ab" is within
bounds with one decimal place, and the empty text scores 0. -/
theorem claim_C8_witness :
    0 ≤ predict (1/2) "ab" ∧ predict (1/2) "ab" ≤ 100 ∧
    (10 * predict (1/2) "ab").den = 1 ∧ predict (1/2) "" = 0 :=
  claim_C8 (1/2) "ab" (by norm_num) (by norm_num)

/-- If any review's scorer call fails, the whole scoring loop fails: the
per-review loop in `analyze_reviews` has no per-review exception handler. -/
theorem score_all_error_of_mem (scorer : String → Except String ℚ) (t e : String) :
    ∀ reviews : List String, t ∈ reviews → scorer t = Except.error e →
      ∃ msg, score_all scorer reviews = Except.error msg := by
  intro reviews
  induction reviews with
  | nil => intro hmem; simp at hmem
  | cons a ts ih =>
    intro hmem herr
    cases ha : scorer a with
    | error m => exact ⟨m, by simp [score_all, ha]⟩
    | ok s =>
      have ht : t ∈ ts := by
        rcases List.mem_cons.mp hmem with h1 | h2
        · rw [h1] at herr
          rw [herr] at ha
          cases ha
        · exact h2
      obtain ⟨m, hm⟩ := ih ht herr
      exact ⟨m, by simp [score_all, ha, hm]⟩

/-- Claim C4 counterexample: in a batch of three reviews where only the
second review's scoring fails, the whole batch is marked failed — the other
two reviews do not receive scores and no batch result is produced, contrary
to the claim. -/
theorem claim_C4_counterexample :
    analyze_with_ai demo_scorer ["a", "b", "c"] = BatchOutcome.failed "model failure" :=
  rfl

/-- Claim C4 (amended): a scoring error for a single review aborts the whole
batch: the exception propagates out of the scoring loop, `analyze_with_ai`
catches it, and the batch is marked failed; no neutral/zero-score fallback
exists. -/
theorem claim_C4_amended (scorer : String → Except String ℚ)
    (reviews : List String) (t e : String) (hmem : t ∈ reviews)
    (herr : scorer t = Except.error e) :
    (analyze_with_ai scorer reviews).isFailed = true := by
  obtain ⟨m, hm⟩ := score_all_error_of_mem scorer t e reviews hmem herr
  simp [analyze_with_ai, analyze_reviews, hm, BatchOutcome.isFailed]

/-- Claim C4 (amended) witness: the concrete three-review batch with one
failing review ends in the failed state. -/
theorem claim_C4_witness :
    (analyze_with_ai demo_scorer ["a", "b", "c"]).isFailed = true :=
  claim_C4_amended demo_scorer ["a", "b", "c"] "b" "model failure" (by simp) rfl

/-- Every row built by the feedback loop belongs to the submitted batch, so
filtering on that batch id keeps all of them. -/
theorem make_feedback_rows_filter_own (aid : ℕ) (s : String) (us : ℤ) (avg : ℚ) :
    ∀ reviews : List ReviewItem,
      (make_feedback_rows aid s us avg reviews).filter
          (fun f => f.analysis_id == aid) =
        make_feedback_rows aid s us avg reviews := by
  intro reviews
  induction reviews with
  | nil => rfl
  | cons r rs ih =>
    simp only [make_feedback_rows]
    split_ifs with hc
    · exact ih
    · cases label_for_strategy s r.reliability_score avg us with
      | none => exact ih
      | some l => simp [List.filter, ih]

/-- Filtering the freshly built feedback rows for other batches gives
nothing: the loop only creates rows for the submitted batch. -/
theorem make_feedback_rows_filter_other (aid : ℕ) (s : String) (us : ℤ) (avg : ℚ) :
    ∀ reviews : List ReviewItem,
      (make_feedback_rows aid s us avg reviews).filter
          (fun f => !(f.analysis_id == aid)) = [] := by
  intro reviews
  induction reviews with
  | nil => rfl
  | cons r rs ih =>
    simp only [make_feedback_rows]
    split_ifs with hc
    · exact ih
    · cases label_for_strategy s r.reliability_score avg us with
      | none => exact ih
      | some l => simp [List.filter, ih]

/-- Claim C6: feedback submission deletes all previously stored rows for the
batch before inserting the new labeled set, so after two submissions for the
same batch exactly the second set is live, and rows of other batches are
untouched. -/
theorem claim_C6 (db : List FeedbackRow) (aid : ℕ) (s1 s2 : String)
    (u1 u2 : ℤ) (rv1 rv2 : List ReviewItem) :
    (submit_feedback (submit_feedback db aid s1 u1 rv1) aid s2 u2 rv2).filter
        (fun f => f.analysis_id == aid) =
      make_feedback_rows aid s2 u2 (collected_avg rv2) rv2 ∧
    (submit_feedback (submit_feedback db aid s1 u1 rv1) aid s2 u2 rv2).filter
        (fun f => !(f.analysis_id == aid)) =
      db.filter (fun f => !(f.analysis_id == aid)) := by
  unfold submit_feedback
  constructor
  · rw [List.filter_append, make_feedback_rows_filter_own, List.filter_filter]
    simp
  · rw [List.filter_append, make_feedback_rows_filter_other, List.filter_filter]
    simp only [Bool.and_self, List.append_nil]
    rw [List.filter_append, make_feedback_rows_filter_other, List.filter_filter]
    simp only [Bool.and_self, List.append_nil]

/-- Claim C3: when the data gates of `train_random_forest` fail — merged
size below 100, or either label class below 5 — the job is marked failed
with the corresponding reason, no new ModelVersion is registered, and the
model list (hence the active version) is unchanged; a new version appears
only on a successful run. -/
theorem claim_C3 (models : List AIModel) (labels : List ℤ) (acc : ℚ)
    (job : AIJob) (h : (models.find? fun m => m.active).isSome = true) :
    (labels.length < 100 →
      (process_job models labels acc job).1 = models ∧
      (process_job models labels acc job).2.status = "failed" ∧
      (process_job models labels acc job).2.error_message =
        some (insufficient_msg labels.length)) ∧
    (100 ≤ labels.length → (labels.count 1 < 5 ∨ labels.count 0 < 5) →
      (process_job models labels acc job).1 = models ∧
      (process_job models labels acc job).2.status = "failed" ∧
      (process_job models labels acc job).2.error_message =
        some (imbalance_msg (labels.count 1) (labels.count 0))) := by
  obtain ⟨cur, hcur⟩ := Option.isSome_iff_exists.mp h
  constructor
  · intro hlen
    simp only [process_job, hcur, train_random_forest, if_pos hlen]
    refine ⟨?_, ?_, ?_⟩ <;> trivial
  · intro hlen hcls
    simp only [process_job, hcur, train_random_forest,
      if_neg (by omega : ¬ labels.length < 100), if_pos hcls]
    refine ⟨?_, ?_, ?_⟩ <;> trivial

/-- Claim C3 witness: a merged dataset of 60 examples aborts with the
insufficient-data reason and leaves the single active model untouched. -/
theorem claim_C3_witness :
    (process_job demo_models (List.replicate 60 1) (8/10) demo_job).1 =
      demo_models ∧
    (process_job demo_models (List.replicate 60 1) (8/10) demo_job).2.status =
      "failed" ∧
    (process_job demo_models (List.replicate 60 1) (8/10) demo_job).2.error_message =
      some (insufficient_msg (List.replicate 60 (1 : ℤ)).length) :=
  (claim_C3 demo_models (List.replicate 60 1) (8/10) demo_job rfl).1
    (by simp)
